import Mathlib

/-!
# Verification of the orbit-file selection core of `sentineleof`

Shallow embedding of `src/eof/scihubclient.py`:
* `DateTime` models Python `datetime.datetime` values as produced by
  `datetime.strptime(_, '%Y%m%dT%H%M%S')` (naive, microsecond = 0); Python
  compares such values lexicographically by (year, month, day, hour, minute,
  second), which is the order given below.
* `get_validity_info` models the identifier parser (regex match + strptime),
  `lastval_cover` the coverage selector, and `ScihubGnssClient.*` the
  orchestration around them.  Raised Python exceptions are modelled as
  `Except.error` values.
-/

deriving instance DecidableEq for Except

namespace Sentineleof

/-- Model of a naive Python `datetime.datetime` with zero microseconds, as
built by `datetime.strptime(s, DATE_FMT)` in the source. -/
structure DateTime where
  year : Nat
  month : Nat
  day : Nat
  hour : Nat
  minute : Nat
  second : Nat
deriving DecidableEq, Repr

/-- The field tuple of a `DateTime`, in lexicographic order; Python compares
naive datetimes exactly lexicographically on these fields. -/
def DateTime.key (t : DateTime) :
    Lex (Nat × Lex (Nat × Lex (Nat × Lex (Nat × Lex (Nat × Nat))))) :=
  toLex (t.year, toLex (t.month, toLex (t.day, toLex (t.hour, toLex (t.minute, t.second)))))

theorem DateTime.key_injective : Function.Injective DateTime.key := by
  intro a b h
  cases a; cases b
  simp only [DateTime.key, toLex_inj, Prod.mk.injEq] at h
  obtain ⟨h1, h2, h3, h4, h5, h6⟩ := h
  simp_all

/-- Python's comparison order on naive datetimes: lexicographic by fields. -/
instance : LinearOrder DateTime := LinearOrder.lift' DateTime.key DateTime.key_injective

/-- Model of a Python `datetime.timedelta`, reduced to its total length in
seconds (the only aspect datetime arithmetic depends on). -/
structure Timedelta where
  seconds : Int
deriving DecidableEq, Repr

/-- `datetime.timedelta(days=d)`. -/
def Timedelta.ofDays (d : Int) : Timedelta :=
  ⟨d * 86400⟩

/-- Days since 1970-01-01 of a proleptic-Gregorian civil date
(Howard Hinnant's `days_from_civil`); this is the day arithmetic underlying
Python `datetime` ± `timedelta`. -/
def daysFromCivil (y m d : Int) : Int :=
  let y' : Int := if m ≤ 2 then y - 1 else y
  let era : Int := Int.fdiv y' 400
  let yoe : Int := y' - era * 400
  let mp : Int := if m > 2 then m - 3 else m + 9
  let doy : Int := Int.fdiv (153 * mp + 2) 5 + d - 1
  let doe : Int := yoe * 365 + Int.fdiv yoe 4 - Int.fdiv yoe 100 + doy
  era * 146097 + doe - 719468

/-- Civil date from days since 1970-01-01 (Hinnant's `civil_from_days`). -/
def civilFromDays (z : Int) : Int × Int × Int :=
  let z' : Int := z + 719468
  let era : Int := Int.fdiv z' 146097
  let doe : Int := z' - era * 146097
  let yoe : Int :=
    Int.fdiv (doe - Int.fdiv doe 1460 + Int.fdiv doe 36524 - Int.fdiv doe 146096) 365
  let y : Int := yoe + era * 400
  let doy : Int := doe - (365 * yoe + Int.fdiv yoe 4 - Int.fdiv yoe 100)
  let mp : Int := Int.fdiv (5 * doy + 2) 153
  let d : Int := doy - Int.fdiv (153 * mp + 2) 5 + 1
  let m : Int := if mp < 10 then mp + 3 else mp - 9
  (if m ≤ 2 then y + 1 else y, m, d)

/-- Seconds since the 1970-01-01T00:00:00 epoch. -/
def DateTime.toEpochSecs (t : DateTime) : Int :=
  daysFromCivil (t.year : Int) (t.month : Int) (t.day : Int) * 86400
    + (t.hour : Int) * 3600 + (t.minute : Int) * 60 + (t.second : Int)

/-- Datetime from seconds since the epoch. -/
def DateTime.ofEpochSecs (n : Int) : DateTime :=
  let days : Int := Int.fdiv n 86400
  let sod : Nat := (n - days * 86400).toNat
  let ymd := civilFromDays days
  ⟨ymd.1.toNat, ymd.2.1.toNat, ymd.2.2.toNat, sod / 3600, sod % 3600 / 60, sod % 60⟩

/-- Python `datetime + timedelta` (exact calendar arithmetic). -/
def DateTime.addTimedelta (t : DateTime) (td : Timedelta) : DateTime :=
  DateTime.ofEpochSecs (t.toEpochSecs + td.seconds)

/-- Python `datetime - timedelta` (exact calendar arithmetic). -/
def DateTime.subTimedelta (t : DateTime) (td : Timedelta) : DateTime :=
  DateTime.ofEpochSecs (t.toEpochSecs - td.seconds)

/-!
## Python exception classes of the source

`scihubclient.py` declares `class ValidityError(ValueError)` and
`class OrbitSelectionError(RuntimeError)`; `get_validity_info` raises plain
`ValueError`s.  We record the class hierarchy so that "a caller can
distinguish errors by type" is expressible.
-/

/-- The Python exception classes relevant to the source module. -/
inductive PyClass
  | exception
  | runtimeError
  | valueError
  | validityError
  | orbitSelectionError
deriving DecidableEq, Repr

/-- Method-resolution order (the class followed by its base classes), from the
`class` statements of the source and the Python builtins. -/
def PyClass.mro : PyClass → List PyClass
  | .exception => [.exception]
  | .runtimeError => [.runtimeError, .exception]
  | .valueError => [.valueError, .exception]
  | .validityError => [.validityError, .valueError, .exception]
  | .orbitSelectionError => [.orbitSelectionError, .runtimeError, .exception]

/-- `isinstance(e, handler)` for an exception of class `c`: whether an
`except handler:` clause catches it. -/
def PyClass.isinstance (c handler : PyClass) : Bool :=
  handler ∈ c.mro

/-- The `ValidityError` raised by `lastval_cover`; its message carries the
requested `t0` and `t1` (the payload here). -/
structure ValidityError where
  t0 : DateTime
  t1 : DateTime
deriving DecidableEq, Repr

/-- Python class of a raised `ValidityError`. -/
def ValidityError.pyClass : ValidityError → PyClass :=
  fun _ => PyClass.validityError

/-- The `ValueError`s raised by `get_validity_info`: either the explicit
`raise ValueError(f'"{product_id}" does not math ...')` for a non-matching
identifier (payload: that identifier), or the `ValueError` raised by
`datetime.strptime` on a matched but invalid timestamp field (payload: that
timestamp string). -/
inductive ParseError
  | noMatch (product_id : String)
  | badTimestamp (timestamp : String)
deriving DecidableEq, Repr

/-- Python class of a raised parse error: both cases are plain `ValueError`s
(not `ValidityError`s). -/
def ParseError.pyClass : ParseError → PyClass :=
  fun _ => PyClass.valueError

/-- The `ValidityInfo` named tuple of the source. -/
structure ValidityInfo where
  product_id : String
  generation_date : DateTime
  start_validity : DateTime
  stop_validity : DateTime
deriving DecidableEq, Repr

/-!
## The identifier parser (`get_validity_info`)

The source matches each identifier with
`re.compile(r'S1\w+_(?P<generation_date>\d{8}T\d{6})_'
            r'V(?P<start_validity>\d{8}T\d{6})_'
            r'(?P<stop_validity>\d{8}T\d{6})\w*')`
using `pattern.match` (anchored at the start, trailing input ignored).  We
embed the match semantics of this one fixed pattern: after the literal `S1`,
the greedy `\w+` consumes the longest word-character run that still lets the
rest of the pattern match (Python's backtracking tries longer runs first),
then come the three fixed-width timestamp groups; the final `\w*` constrains
nothing.  `\w` is modelled over ASCII (letters, digits, underscore).
-/

/-- ASCII `\w`: letter, digit or underscore. -/
def isWordChar (c : Char) : Bool :=
  c.isAlphanum || c == '_'

/-- Shape of one timestamp group, `\d{8}T\d{6}`. -/
def tsShape (cs : List Char) : Bool :=
  cs.length == 15 && (cs.take 8).all Char.isDigit && cs[8]? == some 'T'
    && (cs.drop 9).all Char.isDigit

/-- Match of the pattern suffix `_(\d{8}T\d{6})_V(\d{8}T\d{6})_(\d{8}T\d{6})`
at the start of `cs`, returning the three captured groups. -/
def matchBlock (cs : List Char) : Option (List Char × List Char × List Char) :=
  match cs with
  | [] => none
  | c :: rest =>
    if c = '_' then
      let gen := rest.take 15
      if tsShape gen then
        match rest.drop 15 with
        | c1 :: c2 :: rest2 =>
          if c1 = '_' ∧ c2 = 'V' then
            let sta := rest2.take 15
            if tsShape sta then
              match rest2.drop 15 with
              | c3 :: rest4 =>
                if c3 = '_' then
                  let sto := rest4.take 15
                  if tsShape sto then some (gen, sta, sto) else none
                else none
              | [] => none
            else none
          else none
        | _ => none
      else none
    else none

/-- Greedy backtracking of `\w+`: try a run of `k` word characters for
`k = n, n-1, ..., 1` and return the first (longest) success of the rest of
the pattern. -/
def tryBlockFrom (tail : List Char) : Nat → Option (List Char × List Char × List Char)
  | 0 => none
  | k + 1 =>
    match matchBlock (tail.drop (k + 1)) with
    | some g => some g
    | none => tryBlockFrom tail k

/-- `pattern.match(product_id)` for the default pattern, returning the three
named groups on success. -/
def patternMatch (s : String) : Option (String × String × String) :=
  match s.data with
  | c1 :: c2 :: tail =>
    if c1 = 'S' ∧ c2 = '1' then
      match tryBlockFrom tail (tail.takeWhile isWordChar).length with
      | some (gen, sta, sto) => some (gen.asString, sta.asString, sto.asString)
      | none => none
    else none
  | _ => none

/-- Numeric value of a digit character. -/
def digitVal (c : Char) : Nat :=
  c.toNat - 48

/-- Proleptic-Gregorian leap year, as used by Python `datetime`. -/
def isLeapYear (y : Nat) : Bool :=
  y % 4 == 0 && (y % 100 != 0 || y % 400 == 0)

/-- Length of a month, as validated by the Python `datetime` constructor. -/
def daysInMonth (y m : Nat) : Nat :=
  if m == 2 then (if isLeapYear y then 29 else 28)
  else if m == 4 || m == 6 || m == 9 || m == 11 then 30
  else 31

/-- `datetime.strptime(s, '%Y%m%dT%H%M%S')`, `None` for its `ValueError`.
On the 15-character `\d{8}T\d{6}` inputs produced by the pattern, Python's
strptime accepts exactly the strings with `01 <= month-digits <= 12`,
`01 <= day-digits <= days-in-month`, hour `<= 23`, minute and second `<= 59`
and year `>= 0001` (every other shape either fails the per-field regexes,
leaves unconverted data, or is rejected by the `datetime` constructor). -/
def strptime (s : String) : Option DateTime :=
  match s.data with
  | [y1, y2, y3, y4, mo1, mo2, d1, d2, t, h1, h2, mi1, mi2, s1, s2] =>
    if ([y1, y2, y3, y4, mo1, mo2, d1, d2, h1, h2, mi1, mi2, s1, s2].all Char.isDigit)
        && t == 'T' then
      let year := digitVal y1 * 1000 + digitVal y2 * 100 + digitVal y3 * 10 + digitVal y4
      let month := digitVal mo1 * 10 + digitVal mo2
      let day := digitVal d1 * 10 + digitVal d2
      let hour := digitVal h1 * 10 + digitVal h2
      let minute := digitVal mi1 * 10 + digitVal mi2
      let second := digitVal s1 * 10 + digitVal s2
      if 1 ≤ year ∧ 1 ≤ month ∧ month ≤ 12 ∧ 1 ≤ day ∧ day ≤ daysInMonth year month
          ∧ hour ≤ 23 ∧ minute ≤ 59 ∧ second ≤ 59 then
        some ⟨year, month, day, hour, minute, second⟩
      else none
    else none
  | _ => none

/-- `get_validity_info(products)` with the default pattern (the optional
custom-pattern argument, unused by the claims, is not modelled): for each
identifier in order, match the pattern and strptime the three groups,
fail-fast on the first failure. -/
def get_validity_info : List String → Except ParseError (List ValidityInfo)
  | [] => Except.ok []
  | product_id :: rest =>
    match patternMatch product_id with
    | none => Except.error (ParseError.noMatch product_id)
    | some (g, a, b) =>
      match strptime g with
      | none => Except.error (ParseError.badTimestamp g)
      | some generation_date =>
        match strptime a with
        | none => Except.error (ParseError.badTimestamp a)
        | some start_validity =>
          match strptime b with
          | none => Except.error (ParseError.badTimestamp b)
          | some stop_validity =>
            match get_validity_info rest with
            | Except.error e => Except.error e
            | Except.ok out =>
              Except.ok (ValidityInfo.mk product_id generation_date start_validity
                stop_validity :: out)

/-- Helper predicate (not in the source): the successful parse of a single
identifier, i.e. what `get_validity_info` contributes for one element when it
does not raise. -/
def parseOne (product_id : String) : Option ValidityInfo :=
  match patternMatch product_id with
  | none => none
  | some (g, a, b) =>
    match strptime g with
    | none => none
    | some generation_date =>
      match strptime a with
      | none => none
      | some start_validity =>
        match strptime b with
        | none => none
        | some stop_validity =>
          some (ValidityInfo.mk product_id generation_date start_validity stop_validity)

/-!
## The coverage selector (`lastval_cover`)

The source filters the covering records in input order into a fresh list
`candidates`, raises `ValidityError(t0, t1 …)` if it is empty, otherwise
sorts it in-place with `candidates.sort(key=attrgetter('generation_date'),
reverse=True)` — a *stable* descending sort — and returns
`candidates[0].product_id`.  The stable descending sort is modelled by
`List.insertionSort` with the relation below (ties keep input order, exactly
as Python's stable sort with `reverse=True`); the sorted list is empty iff
`candidates` is, so matching on the sorted list models the emptiness test.
-/

/-- "`a` may come before `b`" in the descending sort:
`b.generation_date <= a.generation_date`. -/
def generationDateGE (a b : ValidityInfo) : Prop :=
  b.generation_date ≤ a.generation_date

instance : DecidableRel generationDateGE :=
  fun a b => inferInstanceAs (Decidable (b.generation_date ≤ a.generation_date))

instance : IsTotal ValidityInfo generationDateGE :=
  ⟨fun a b => le_total b.generation_date a.generation_date⟩

instance : IsTrans ValidityInfo generationDateGE :=
  ⟨fun _ _ _ hab hbc => le_trans hbc hab⟩

/-- The `candidates` list of `lastval_cover`: records whose validity interval
covers `[t0, t1]`, in input order. -/
def lastval_cover_candidates (t0 t1 : DateTime) (data : List ValidityInfo) :
    List ValidityInfo :=
  data.filter fun item => decide (item.start_validity ≤ t0) && decide (item.stop_validity ≥ t1)

/-- `lastval_cover(t0, t1, data)`; the raised `ValidityError` becomes
`Except.error`. -/
def lastval_cover (t0 t1 : DateTime) (data : List ValidityInfo) :
    Except ValidityError String :=
  match List.insertionSort generationDateGE (lastval_cover_candidates t0 t1 data) with
  | [] => Except.error (ValidityError.mk t0 t1)
  | item :: _ => Except.ok item.product_id

/-!
## The orchestration (`ScihubGnssClient`)

The network catalog is an external collaborator: we model
`self._api.query(...)` as an uninterpreted function from the query arguments
to the returned product mapping.  Only the `identifier` field of each mapping
value is read by the core, so a mapping value is modelled by its key and its
identifier; the mapping is a list of entries to preserve order.
-/

/-- One entry of the mapping returned by the catalog query: its key and the
`identifier` field of its value. -/
structure CatalogEntry where
  key : String
  identifier : String
deriving DecidableEq, Repr

/-- The uninterpreted `GnssAPI.query`, keyed by the arguments the client
passes: date range, `platformserialidentifier` source (the satellite id) and
product type. -/
def GnssQuery : Type :=
  DateTime → DateTime → String → String → List CatalogEntry

/-- A Sentinel-1 product as consumed by `query_orbit_for_product`: its
acquisition window and mission (the fields read from `S1Product`). -/
structure S1Product where
  start_time : DateTime
  stop_time : DateTime
  mission : String
deriving DecidableEq, Repr

/-- Errors escaping the client methods: a failed `assert` in `query_orbit`,
or the exceptions of the parser / selector propagating through
`_select_orbit`. -/
inductive ScihubError
  | assertionError
  | parse (e : ParseError)
  | validity (e : ValidityError)
deriving DecidableEq, Repr

namespace ScihubGnssClient

/-- Default pre-margin: `T0 = datetime.timedelta(days=1)`. -/
def T0 : Timedelta :=
  Timedelta.ofDays 1

/-- Default post-margin: `T1 = datetime.timedelta(days=1)`. -/
def T1 : Timedelta :=
  Timedelta.ofDays 1

/-- `ScihubGnssClient.query_orbit`: after the two `assert` statements, pass
the query through to the API. -/
def query_orbit (api : GnssQuery) (t0 t1 : DateTime) (satellite_id : String)
    (product_type : String := "AUX_POEORB") : Except ScihubError (List CatalogEntry) :=
  if satellite_id = "S1A" ∨ satellite_id = "S1B" then
    if product_type = "AUX_POEORB" ∨ product_type = "AUX_RESORB" then
      Except.ok (api t0 t1 satellite_id product_type)
    else Except.error ScihubError.assertionError
  else Except.error ScihubError.assertionError

/-- `ScihubGnssClient._select_orbit`: parse the identifiers of the queried
products, select by coverage at `(t0, t1)`, and keep the mapping entries
whose identifier is the selected one. -/
def _select_orbit (products : List CatalogEntry) (t0 t1 : DateTime) :
    Except ScihubError (List CatalogEntry) :=
  let orbit_products := products.map CatalogEntry.identifier
  match get_validity_info orbit_products with
  | Except.error e => Except.error (ScihubError.parse e)
  | Except.ok validity_info =>
    match lastval_cover t0 t1 validity_info with
    | Except.error e => Except.error (ScihubError.validity e)
    | Except.ok product_id =>
      Except.ok (products.filter fun p => p.identifier == product_id)

/-- `ScihubGnssClient.query_orbit_for_product`: widen the product's window by
the margins for the catalog query, then select with the unwidened window. -/
def query_orbit_for_product (api : GnssQuery) (product : S1Product)
    (product_type : String := "AUX_POEORB")
    (t0_margin : Timedelta := T0) (t1_margin : Timedelta := T1) :
    Except ScihubError (List CatalogEntry) :=
  let t0 := product.start_time
  let t1 := product.stop_time
  match query_orbit api (t0.subTimedelta t0_margin) (t1.addTimedelta t1_margin)
      product.mission product_type with
  | Except.error e => Except.error e
  | Except.ok products => _select_orbit products t0 t1

end ScihubGnssClient

/-!
## Helper lemmas
-/

/-- Head of the stable descending sort: if everything left of `R` has a
strictly smaller generation date (or is `R` itself) and everything right of
`R` has a generation date at most `R`'s, the sorted list starts with a record
carrying `R`'s product id and generation date. -/
theorem insertionSort_genDesc_head (l1 l2 : List ValidityInfo) (R : ValidityInfo)
    (h1 : ∀ x ∈ l1, x.generation_date < R.generation_date ∨ x = R)
    (h2 : ∀ x ∈ l2, x.generation_date ≤ R.generation_date) :
    ∃ S rest, List.insertionSort generationDateGE (l1 ++ R :: l2) = S :: rest
      ∧ S.product_id = R.product_id ∧ S.generation_date = R.generation_date := by
  induction l1 with
  | nil =>
    cases hs : List.insertionSort generationDateGE l2 with
    | nil =>
      refine ⟨R, [], ?_, rfl, rfl⟩
      simp [hs]
    | cons y ys =>
      have hy : y ∈ l2 := by
        have hmem : y ∈ List.insertionSort generationDateGE l2 := by
          rw [hs]; exact List.mem_cons_self _ _
        exact (List.perm_insertionSort generationDateGE l2).subset hmem
      have hRy : generationDateGE R y := h2 y hy
      refine ⟨R, y :: ys, ?_, rfl, rfl⟩
      show List.orderedInsert generationDateGE R (List.insertionSort generationDateGE l2)
        = R :: y :: ys
      rw [hs]
      exact List.orderedInsert_of_le generationDateGE ys hRy
  | cons x l1' ih =>
    obtain ⟨S, rest, hsort, hpid, hgen⟩ :=
      ih (fun q hq => h1 q (List.mem_cons_of_mem _ hq))
    have hstep : List.insertionSort generationDateGE ((x :: l1') ++ R :: l2)
        = List.orderedInsert generationDateGE x (S :: rest) := by
      show List.orderedInsert generationDateGE x
          (List.insertionSort generationDateGE (l1' ++ R :: l2)) = _
      rw [hsort]
    rcases h1 x (List.mem_cons_self _ _) with hx | hx
    · have hns : ¬ generationDateGE x S :=
        not_le_of_lt (show x.generation_date < S.generation_date from hgen ▸ hx)
      refine ⟨S, List.orderedInsert generationDateGE x rest, ?_, hpid, hgen⟩
      rw [hstep]
      show (if generationDateGE x S then x :: S :: rest
        else S :: List.orderedInsert generationDateGE x rest) = _
      rw [if_neg hns]
    · subst hx
      have hle : generationDateGE x S := le_of_eq hgen
      refine ⟨x, S :: rest, ?_, rfl, rfl⟩
      rw [hstep]
      exact List.orderedInsert_of_le generationDateGE rest hle

theorem tsShape_length {cs : List Char} (h : tsShape cs = true) : cs.length = 15 := by
  simp only [tsShape, Bool.and_eq_true, beq_iff_eq] at h
  exact h.1.1.1

theorem tsShape_not_underscore {cs : List Char} (h : tsShape cs = true) : '_' ∉ cs := by
  have hlen := tsShape_length h
  simp only [tsShape, Bool.and_eq_true, beq_iff_eq, List.all_eq_true] at h
  obtain ⟨⟨⟨-, h2⟩, h3⟩, h4⟩ := h
  intro hmem
  rw [← List.take_append_drop 9 cs] at hmem
  rcases List.mem_append.mp hmem with h9 | h9
  · have htake : cs.take 9 = cs.take 8 ++ ['T'] := by
      rw [show (9:Nat) = 8+1 from rfl, List.take_succ, h3]
      rfl
    rw [htake] at h9
    rcases List.mem_append.mp h9 with h8 | h8
    · exact absurd (h2 _ h8) (by decide)
    · exact absurd (List.mem_singleton.mp h8) (by decide)
  · exact absurd (h4 _ h9) (by decide)

theorem tsShape_cons_nondigit {c : Char} (hc : c.isDigit = false) (rest : List Char) :
    tsShape (c :: rest) = false := by
  rw [tsShape, show (8:Nat) = 7+1 from rfl, List.take_succ_cons]
  simp [hc]

theorem matchBlock_cons_ne {c : Char} (rest : List Char) (h : ¬ c = '_') :
    matchBlock (c :: rest) = none := by
  simp [matchBlock, h]

theorem matchBlock_drop_no_underscore {l : List Char} (h : '_' ∉ l) (j : Nat) :
    matchBlock (l.drop j) = none := by
  cases hd : l.drop j with
  | nil => rfl
  | cons c rest =>
    refine matchBlock_cons_ne rest ?_
    intro hc
    subst hc
    have hmem : '_' ∈ l.drop j := by rw [hd]; exact List.mem_cons_self _ _
    exact h (List.drop_subset j l hmem)

/-- The pattern suffix succeeds at the intended underscore, capturing the
three timestamp groups. -/
theorem matchBlock_intended {gen sta sto : List Char} (trail : List Char)
    (hgen : tsShape gen = true) (hsta : tsShape sta = true) (hsto : tsShape sto = true) :
    matchBlock ('_' :: (gen ++ '_' :: 'V' :: (sta ++ '_' :: (sto ++ trail))))
      = some (gen, sta, sto) := by
  have hg15 := tsShape_length hgen
  have hs15 := tsShape_length hsta
  have ht15 := tsShape_length hsto
  simp only [matchBlock, List.take_left' hg15, List.drop_left' hg15, hgen,
    List.take_left' hs15, List.drop_left' hs15, hsta,
    List.take_left' ht15, hsto, if_true]
  simp

/-- At every position strictly past the intended underscore, the pattern
suffix fails (assuming the trailing part contains no underscore). -/
theorem matchBlock_drop_none {gen sta sto : List Char} (trail : List Char)
    (hgen : tsShape gen = true) (hsta : tsShape sta = true) (hsto : tsShape sto = true)
    (htrail : '_' ∉ trail) (m : Nat) :
    matchBlock ((gen ++ '_' :: 'V' :: (sta ++ '_' :: (sto ++ trail))).drop m) = none := by
  have hg15 := tsShape_length hgen
  have hs15 := tsShape_length hsta
  have ht15 := tsShape_length hsto
  rcases Nat.lt_or_ge m 15 with h15 | h15
  · rw [List.drop_append_of_le_length (by omega),
      List.drop_eq_getElem_cons (show m < gen.length by omega), List.cons_append]
    refine matchBlock_cons_ne _ ?_
    intro hc
    exact tsShape_not_underscore hgen (hc ▸ List.getElem_mem (show m < gen.length by omega))
  obtain ⟨m1, rfl⟩ : ∃ m1, m = gen.length + m1 := ⟨m - 15, by omega⟩
  rw [List.drop_append]
  rcases m1 with _ | m1'
  · rw [List.drop_zero]
    simp [matchBlock, tsShape_cons_nondigit (show ('V' : Char).isDigit = false by decide)]
  rw [List.drop_succ_cons]
  rcases m1' with _ | m2
  · rw [List.drop_zero]
    exact matchBlock_cons_ne _ (by decide)
  rw [List.drop_succ_cons]
  rcases Nat.lt_or_ge m2 15 with h15b | h15b
  · rw [List.drop_append_of_le_length (by omega),
      List.drop_eq_getElem_cons (show m2 < sta.length by omega), List.cons_append]
    refine matchBlock_cons_ne _ ?_
    intro hc
    exact tsShape_not_underscore hsta (hc ▸ List.getElem_mem (show m2 < sta.length by omega))
  obtain ⟨m3, rfl⟩ : ∃ m3, m2 = sta.length + m3 := ⟨m2 - 15, by omega⟩
  rw [List.drop_append]
  rcases m3 with _ | m4
  · rw [List.drop_zero]
    rcases trail with _ | ⟨c1, rest1⟩
    · rw [List.append_nil]
      simp [matchBlock, List.take_of_length_le (le_of_eq ht15),
        List.drop_eq_nil_of_le (le_of_eq ht15), hsto]
    rcases rest1 with _ | ⟨c2, rest2⟩
    · simp [matchBlock, List.take_left' ht15, List.drop_left' ht15, hsto]
    have hc1 : ¬ c1 = '_' := by
      intro hc
      exact htrail (hc ▸ List.mem_cons_self _ _)
    simp [matchBlock, List.take_left' ht15, List.drop_left' ht15, hsto, hc1]
  rw [List.drop_succ_cons]
  rcases Nat.lt_or_ge m4 15 with h15c | h15c
  · rw [List.drop_append_of_le_length (by omega),
      List.drop_eq_getElem_cons (show m4 < sto.length by omega), List.cons_append]
    refine matchBlock_cons_ne _ ?_
    intro hc
    exact tsShape_not_underscore hsto (hc ▸ List.getElem_mem (show m4 < sto.length by omega))
  obtain ⟨m5, rfl⟩ : ∃ m5, m4 = sto.length + m5 := ⟨m4 - 15, by omega⟩
  rw [List.drop_append]
  exact matchBlock_drop_no_underscore htrail m5

theorem takeWhile_length_append {p : Char → Bool} (l1 l2 : List Char)
    (h : ∀ c ∈ l1, p c = true) :
    ((l1 ++ l2).takeWhile p).length = l1.length + (l2.takeWhile p).length := by
  induction l1 with
  | nil => simp
  | cons c t ih =>
    have hc : p c = true := h c (List.mem_cons_self _ _)
    rw [List.cons_append, List.takeWhile_cons, if_pos hc, List.length_cons,
      ih (fun x hx => h x (List.mem_cons_of_mem _ hx)), List.length_cons]
    omega

/-- The greedy `\w+` backtracking: if the pattern suffix succeeds when the
run has length `k0` and fails for every longer run, the search starting from
any `n ≥ k0` returns that success. -/
theorem tryBlockFrom_eq_of {tail : List Char} {res : List Char × List Char × List Char}
    {k0 : Nat} (hk : 1 ≤ k0)
    (hsucc : matchBlock (tail.drop k0) = some res)
    (hfail : ∀ j, k0 < j → matchBlock (tail.drop j) = none) :
    ∀ n, k0 ≤ n → tryBlockFrom tail n = some res := by
  intro n
  induction n with
  | zero => intro hn; omega
  | succ n ih =>
    intro hn
    rcases Nat.lt_or_ge n k0 with hlt | hge
    · have hkn : k0 = n + 1 := by omega
      subst hkn
      simp only [tryBlockFrom, hsucc]
    · have hf : matchBlock (tail.drop (n+1)) = none := hfail _ (by omega)
      simp only [tryBlockFrom, hf]
      exact ih hge

/-- If one identifier parses to `v`, `get_validity_info` on a list starting
with it conses `v` onto the result for the remaining list. -/
theorem get_validity_info_cons_of_parseOne {p : String} {v : ValidityInfo}
    (h : parseOne p = some v) (rest : List String) :
    get_validity_info (p :: rest)
      = (get_validity_info rest).map (fun out => v :: out) := by
  rcases hm : patternMatch p with _ | ⟨g, a, b⟩
  · simp [parseOne, hm] at h
  rcases hg : strptime g with _ | gd
  · simp [parseOne, hm, hg] at h
  rcases ha : strptime a with _ | sv
  · simp [parseOne, hm, hg, ha] at h
  rcases hb : strptime b with _ | pv
  · simp [parseOne, hm, hg, ha, hb] at h
  simp only [parseOne, hm, hg, ha, hb] at h
  obtain rfl : ValidityInfo.mk p gd sv pv = v := Option.some.inj h
  simp only [get_validity_info, hm, hg, ha, hb]
  cases hr : get_validity_info rest <;> simp [hr, Except.map]

/-- A successfully parsed record carries the original identifier as its
product id. -/
theorem parseOne_product_id {p : String} {v : ValidityInfo}
    (h : parseOne p = some v) : v.product_id = p := by
  rcases hm : patternMatch p with _ | ⟨g, a, b⟩
  · simp [parseOne, hm] at h
  rcases hg : strptime g with _ | gd
  · simp [parseOne, hm, hg] at h
  rcases ha : strptime a with _ | sv
  · simp [parseOne, hm, hg, ha] at h
  rcases hb : strptime b with _ | pv
  · simp [parseOne, hm, hg, ha, hb] at h
  simp only [parseOne, hm, hg, ha, hb] at h
  obtain rfl : ValidityInfo.mk p gd sv pv = v := Option.some.inj h
  rfl

/-!
## Claims
-/

/-- **C1**. `lastval_cover` retains a record of the input as a candidate iff
`start_validity <= t0` and `stop_validity >= t1`, non-strictly on both sides;
a strict violation on either side excludes it. -/
theorem lastval_cover_containment (t0 t1 : DateTime) (data : List ValidityInfo)
    (R : ValidityInfo) (hR : R ∈ data) :
    R ∈ lastval_cover_candidates t0 t1 data ↔
      R.start_validity ≤ t0 ∧ R.stop_validity ≥ t1 := by
  simp [lastval_cover_candidates, List.mem_filter, hR]

/-- Witness for C1 at Scenario A's record and interval. -/
theorem lastval_cover_containment_witness :
    ((ValidityInfo.mk "X" ⟨2020, 1, 2, 0, 0, 0⟩ ⟨2020, 1, 1, 0, 0, 0⟩ ⟨2020, 1, 3, 0, 0, 0⟩) ∈
        lastval_cover_candidates ⟨2020, 1, 1, 12, 0, 0⟩ ⟨2020, 1, 2, 12, 0, 0⟩
          [ValidityInfo.mk "X" ⟨2020, 1, 2, 0, 0, 0⟩ ⟨2020, 1, 1, 0, 0, 0⟩ ⟨2020, 1, 3, 0, 0, 0⟩] ↔
      (ValidityInfo.mk "X" ⟨2020, 1, 2, 0, 0, 0⟩ ⟨2020, 1, 1, 0, 0, 0⟩
          ⟨2020, 1, 3, 0, 0, 0⟩).start_validity ≤ ⟨2020, 1, 1, 12, 0, 0⟩ ∧
        (ValidityInfo.mk "X" ⟨2020, 1, 2, 0, 0, 0⟩ ⟨2020, 1, 1, 0, 0, 0⟩
          ⟨2020, 1, 3, 0, 0, 0⟩).stop_validity ≥ ⟨2020, 1, 2, 12, 0, 0⟩) :=
  lastval_cover_containment _ _ _ _ (by decide)

/-- **C3**. If no input record covers the requested interval, `lastval_cover`
raises `ValidityError` carrying the requested `t0` and `t1` and returns no
identifier. -/
theorem lastval_cover_empty_failure (t0 t1 : DateTime) (data : List ValidityInfo)
    (h : ∀ R ∈ data, ¬ (R.start_validity ≤ t0 ∧ R.stop_validity ≥ t1)) :
    lastval_cover t0 t1 data = Except.error (ValidityError.mk t0 t1) := by
  have hc : lastval_cover_candidates t0 t1 data = [] := by
    rw [lastval_cover_candidates, List.filter_eq_nil_iff]
    intro a ha
    simpa using h a ha
  simp [lastval_cover, hc]

/-- Witness for C3: the empty input (vacuously, no record covers). -/
theorem lastval_cover_empty_failure_witness :
    lastval_cover ⟨2020, 6, 1, 0, 0, 0⟩ ⟨2020, 6, 2, 0, 0, 0⟩ []
      = Except.error (ValidityError.mk ⟨2020, 6, 1, 0, 0, 0⟩ ⟨2020, 6, 2, 0, 0, 0⟩) :=
  lastval_cover_empty_failure _ _ [] (by simp)

/-- **C2**. Among records that cover the interval, if `R` has a strictly
later generation date than every other covering record, `lastval_cover`
returns `R`'s product id — whatever the input order (the decomposition
`l1 ++ R :: l2` is arbitrary). -/
theorem lastval_cover_latest (t0 t1 : DateTime) (data : List ValidityInfo)
    (R : ValidityInfo) (hmem : R ∈ data)
    (hcov : R.start_validity ≤ t0 ∧ R.stop_validity ≥ t1)
    (hmax : ∀ Q ∈ data, Q.start_validity ≤ t0 → Q.stop_validity ≥ t1 → Q ≠ R →
      Q.generation_date < R.generation_date) :
    lastval_cover t0 t1 data = Except.ok R.product_id := by
  obtain ⟨l1, l2, rfl⟩ := List.append_of_mem hmem
  have hfil : lastval_cover_candidates t0 t1 (l1 ++ R :: l2)
      = (l1.filter fun item => decide (item.start_validity ≤ t0)
            && decide (item.stop_validity ≥ t1))
        ++ R :: (l2.filter fun item => decide (item.start_validity ≤ t0)
            && decide (item.stop_validity ≥ t1)) := by
    rw [lastval_cover_candidates, List.filter_append,
      List.filter_cons_of_pos (by simp [hcov.1, hcov.2])]
  have h1 : ∀ x ∈ (l1.filter fun item => decide (item.start_validity ≤ t0)
        && decide (item.stop_validity ≥ t1)),
      x.generation_date < R.generation_date ∨ x = R := by
    intro x hx
    rcases List.mem_filter.mp hx with ⟨hxl, hxp⟩
    by_cases hxR : x = R
    · exact Or.inr hxR
    · simp only [Bool.and_eq_true, decide_eq_true_eq] at hxp
      exact Or.inl (hmax x (List.mem_append.mpr (Or.inl hxl)) hxp.1 hxp.2 hxR)
  have h2 : ∀ x ∈ (l2.filter fun item => decide (item.start_validity ≤ t0)
        && decide (item.stop_validity ≥ t1)),
      x.generation_date ≤ R.generation_date := by
    intro x hx
    rcases List.mem_filter.mp hx with ⟨hxl, hxp⟩
    by_cases hxR : x = R
    · exact le_of_eq (by rw [hxR])
    · simp only [Bool.and_eq_true, decide_eq_true_eq] at hxp
      exact le_of_lt (hmax x (List.mem_append.mpr (Or.inr (List.mem_cons_of_mem _ hxl)))
        hxp.1 hxp.2 hxR)
  obtain ⟨S, rest, hsort, hpid, hgen⟩ := insertionSort_genDesc_head _ _ R h1 h2
  rw [lastval_cover, hfil, hsort]
  exact congrArg Except.ok hpid

/-- Witness for C2 at Scenario B: of two covering records, the one generated
2020-06-05 beats the one generated 2020-06-03, listed first. -/
theorem lastval_cover_latest_witness :
    lastval_cover ⟨2020, 6, 1, 0, 0, 0⟩ ⟨2020, 6, 2, 0, 0, 0⟩
      [⟨"A", ⟨2020, 6, 3, 0, 0, 0⟩, ⟨2020, 5, 31, 0, 0, 0⟩, ⟨2020, 6, 3, 0, 0, 0⟩⟩,
       ⟨"B", ⟨2020, 6, 5, 0, 0, 0⟩, ⟨2020, 5, 31, 0, 0, 0⟩, ⟨2020, 6, 3, 0, 0, 0⟩⟩]
      = Except.ok "B" :=
  lastval_cover_latest _ _ _
    ⟨"B", ⟨2020, 6, 5, 0, 0, 0⟩, ⟨2020, 5, 31, 0, 0, 0⟩, ⟨2020, 6, 3, 0, 0, 0⟩⟩
    (by decide) (by decide) (by decide)

/-- **C10**. When several covering records tie at the maximal generation
date, `lastval_cover` returns the product id of the earliest tied record in
input order: every covering record before `R` is strictly older, every
covering record after `R` is at most as new, and `R` wins. -/
theorem lastval_cover_stable_tie (t0 t1 : DateTime) (l1 l2 : List ValidityInfo)
    (R : ValidityInfo)
    (hcov : R.start_validity ≤ t0 ∧ R.stop_validity ≥ t1)
    (hbefore : ∀ Q ∈ l1, Q.start_validity ≤ t0 → Q.stop_validity ≥ t1 →
      Q.generation_date < R.generation_date)
    (hafter : ∀ Q ∈ l2, Q.start_validity ≤ t0 → Q.stop_validity ≥ t1 →
      Q.generation_date ≤ R.generation_date) :
    lastval_cover t0 t1 (l1 ++ R :: l2) = Except.ok R.product_id := by
  have hfil : lastval_cover_candidates t0 t1 (l1 ++ R :: l2)
      = (l1.filter fun item => decide (item.start_validity ≤ t0)
            && decide (item.stop_validity ≥ t1))
        ++ R :: (l2.filter fun item => decide (item.start_validity ≤ t0)
            && decide (item.stop_validity ≥ t1)) := by
    rw [lastval_cover_candidates, List.filter_append,
      List.filter_cons_of_pos (by simp [hcov.1, hcov.2])]
  have h1 : ∀ x ∈ (l1.filter fun item => decide (item.start_validity ≤ t0)
        && decide (item.stop_validity ≥ t1)),
      x.generation_date < R.generation_date ∨ x = R := by
    intro x hx
    rcases List.mem_filter.mp hx with ⟨hxl, hxp⟩
    simp only [Bool.and_eq_true, decide_eq_true_eq] at hxp
    exact Or.inl (hbefore x hxl hxp.1 hxp.2)
  have h2 : ∀ x ∈ (l2.filter fun item => decide (item.start_validity ≤ t0)
        && decide (item.stop_validity ≥ t1)),
      x.generation_date ≤ R.generation_date := by
    intro x hx
    rcases List.mem_filter.mp hx with ⟨hxl, hxp⟩
    simp only [Bool.and_eq_true, decide_eq_true_eq] at hxp
    exact hafter x hxl hxp.1 hxp.2
  obtain ⟨S, rest, hsort, hpid, hgen⟩ := insertionSort_genDesc_head _ _ R h1 h2
  rw [lastval_cover, hfil, hsort]
  exact congrArg Except.ok hpid

/-- Witness for C10: two covering records both generated 2020-06-05; the one
listed first ("A") is returned. -/
theorem lastval_cover_stable_tie_witness :
    lastval_cover ⟨2020, 6, 1, 0, 0, 0⟩ ⟨2020, 6, 2, 0, 0, 0⟩
      [⟨"A", ⟨2020, 6, 5, 0, 0, 0⟩, ⟨2020, 5, 31, 0, 0, 0⟩, ⟨2020, 6, 3, 0, 0, 0⟩⟩,
       ⟨"B", ⟨2020, 6, 5, 0, 0, 0⟩, ⟨2020, 5, 31, 0, 0, 0⟩, ⟨2020, 6, 3, 0, 0, 0⟩⟩]
      = Except.ok "A" :=
  lastval_cover_stable_tie _ _ []
    [⟨"B", ⟨2020, 6, 5, 0, 0, 0⟩, ⟨2020, 5, 31, 0, 0, 0⟩, ⟨2020, 6, 3, 0, 0, 0⟩⟩]
    ⟨"A", ⟨2020, 6, 5, 0, 0, 0⟩, ⟨2020, 5, 31, 0, 0, 0⟩, ⟨2020, 6, 3, 0, 0, 0⟩⟩
    (by decide) (by decide) (by decide)

/-- **C4, counterexample to the claim as stated.**  The second batch element
`"garbage"` is the (first and only) element failing to match the pattern,
yet `get_validity_info` does not fail with the `ParseError` identifying it:
the first element matches the pattern but its generation timestamp has year
0000, so `datetime.strptime` raises first, about that timestamp. -/
theorem get_validity_info_failfast_counterexample :
    patternMatch "garbage" = none
      ∧ (patternMatch "S1A_00000101T000000_V20200101T000000_20200102T000000").isSome = true
      ∧ get_validity_info
          ["S1A_00000101T000000_V20200101T000000_20200102T000000", "garbage"]
        = Except.error (ParseError.badTimestamp "00000101T000000")
      ∧ ParseError.badTimestamp "00000101T000000" ≠ ParseError.noMatch "garbage" :=
  ⟨by decide, by decide, by decide, by decide⟩

/-- **C4 (amended)**.  For a batch in which some element fails to match the
pattern and every element before the first non-matching one parses
completely (matches the pattern with valid timestamps), `get_validity_info`
fails with the `ValueError` identifying that first non-matching identifier,
and returns no record for any element. -/
theorem get_validity_info_failfast (pre post : List String) (bad : String)
    (hpre : ∀ s ∈ pre, (parseOne s).isSome = true)
    (hbad : patternMatch bad = none) :
    get_validity_info (pre ++ bad :: post) = Except.error (ParseError.noMatch bad) := by
  induction pre with
  | nil =>
    simp only [List.nil_append, get_validity_info, hbad]
  | cons p pre' ih =>
    obtain ⟨v, hv⟩ := Option.isSome_iff_exists.mp (hpre p (List.mem_cons_self _ _))
    rw [List.cons_append, get_validity_info_cons_of_parseOne hv,
      ih (fun s hs => hpre s (List.mem_cons_of_mem _ hs))]
    rfl

/-- Witness for the amended C4: a parsable first element followed by
`"garbage"` fails with the error naming `"garbage"`. -/
theorem get_validity_info_failfast_witness :
    get_validity_info
        ["S1A_AUX_POEORB_20200101T120000_V20191231T225942_20200102T015942", "garbage"]
      = Except.error (ParseError.noMatch "garbage") :=
  get_validity_info_failfast
    ["S1A_AUX_POEORB_20200101T120000_V20191231T225942_20200102T015942"] [] "garbage"
    (by decide) (by decide)

/-- **C6, counterexample to the claim as stated.**  A batch whose single
element matches the pattern, for which `get_validity_info` nevertheless
returns no record: the generation timestamp has year 0000, which
`datetime.strptime` rejects. -/
theorem get_validity_info_per_input_counterexample :
    (patternMatch "S1A_00000101T000000_V20200101T000000_20200102T000000").isSome = true
      ∧ get_validity_info ["S1A_00000101T000000_V20200101T000000_20200102T000000"]
        = Except.error (ParseError.badTimestamp "00000101T000000")
      ∧ ¬ ∃ out, get_validity_info ["S1A_00000101T000000_V20200101T000000_20200102T000000"]
          = Except.ok out := by
  refine ⟨by decide, by decide, ?_⟩
  rintro ⟨out, hout⟩
  rw [(by decide : get_validity_info ["S1A_00000101T000000_V20200101T000000_20200102T000000"]
    = Except.error (ParseError.badTimestamp "00000101T000000"))] at hout
  exact Except.noConfusion hout

/-- **C6 (amended)**.  For a batch of identifiers that all parse completely
(match the pattern with valid timestamps), `get_validity_info` returns
exactly one record per input string, in input order, each carrying the
original identifier as its `product_id`. -/
theorem get_validity_info_per_input (products : List String)
    (h : ∀ s ∈ products, (parseOne s).isSome = true) :
    ∃ out, get_validity_info products = Except.ok out
      ∧ out.map ValidityInfo.product_id = products := by
  induction products with
  | nil => exact ⟨[], rfl, rfl⟩
  | cons p rest ih =>
    obtain ⟨out, hout, hmap⟩ := ih (fun s hs => h s (List.mem_cons_of_mem _ hs))
    obtain ⟨v, hv⟩ := Option.isSome_iff_exists.mp (h p (List.mem_cons_self _ _))
    refine ⟨v :: out, ?_, ?_⟩
    · rw [get_validity_info_cons_of_parseOne hv, hout]
      rfl
    · simp [hmap, parseOne_product_id hv]

/-- Witness for the amended C6 on a two-element batch. -/
theorem get_validity_info_per_input_witness :
    ∃ out, get_validity_info
        ["S1A_AUX_POEORB_20200101T120000_V20191231T225942_20200102T015942",
         "S1B_OPER_AUX_RESORB_OPOD_20200603T031551_V20200603T000734_20200603T032504.EOF"]
      = Except.ok out
      ∧ out.map ValidityInfo.product_id
        = ["S1A_AUX_POEORB_20200101T120000_V20191231T225942_20200102T015942",
           "S1B_OPER_AUX_RESORB_OPOD_20200603T031551_V20200603T000734_20200603T032504.EOF"] :=
  get_validity_info_per_input _ (by decide)

/-- **C7**. `query_orbit_for_product` with default margins queries the
catalog at the widened interval `(t0 - T0, t1 + T1)` — both margins
defaulting to one day — and then performs the containment selection
(`_select_orbit`, i.e. `lastval_cover`) at the unwidened original
`(t0, t1) = (product.start_time, product.stop_time)`. -/
theorem query_orbit_for_product_margins (api : GnssQuery) (product : S1Product)
    (h : product.mission = "S1A" ∨ product.mission = "S1B") :
    ScihubGnssClient.T0 = Timedelta.ofDays 1 ∧ ScihubGnssClient.T1 = Timedelta.ofDays 1
      ∧ ScihubGnssClient.query_orbit_for_product api product
        = ScihubGnssClient._select_orbit
            (api (product.start_time.subTimedelta ScihubGnssClient.T0)
              (product.stop_time.addTimedelta ScihubGnssClient.T1)
              product.mission "AUX_POEORB")
            product.start_time product.stop_time := by
  refine ⟨rfl, rfl, ?_⟩
  rw [ScihubGnssClient.query_orbit_for_product, ScihubGnssClient.query_orbit,
    if_pos h, if_pos (Or.inl rfl : "AUX_POEORB" = "AUX_POEORB" ∨ "AUX_POEORB" = "AUX_RESORB")]

/-- Witness for C7 with a concrete product window, mission `S1A` and an
empty catalog. -/
theorem query_orbit_for_product_margins_witness :
    ScihubGnssClient.T0 = Timedelta.ofDays 1 ∧ ScihubGnssClient.T1 = Timedelta.ofDays 1
      ∧ ScihubGnssClient.query_orbit_for_product (fun _ _ _ _ => [])
          ⟨⟨2020, 6, 1, 0, 0, 0⟩, ⟨2020, 6, 1, 0, 10, 0⟩, "S1A"⟩
        = ScihubGnssClient._select_orbit
            ((fun _ _ _ _ => ([] : List CatalogEntry))
              ((DateTime.mk 2020 6 1 0 0 0).subTimedelta ScihubGnssClient.T0)
              ((DateTime.mk 2020 6 1 0 10 0).addTimedelta ScihubGnssClient.T1)
              "S1A" "AUX_POEORB")
            ⟨2020, 6, 1, 0, 0, 0⟩ ⟨2020, 6, 1, 0, 10, 0⟩ :=
  query_orbit_for_product_margins (fun _ _ _ _ => [])
    ⟨⟨2020, 6, 1, 0, 0, 0⟩, ⟨2020, 6, 1, 0, 10, 0⟩, "S1A"⟩ (Or.inl rfl)

/-- **C5, counterexample to the claim as stated.**  An identifier built in
the defined format from the triple (2020-01-01T12:00:00,
2019-12-31T22:59:42, 2020-01-02T01:59:42) — family prefix `S1A`, then the
three timestamps, then the trailing characters
`_20300101T000000_V20300102T000000_20300103T000000` — is not parsed back to
that triple: the greedy `\w+` backtracks to the *last* position at which the
rest of the pattern matches, so the timestamps embedded in the trailing part
are captured instead. -/
theorem get_validity_info_roundtrip_counterexample :
    get_validity_info
        ["S1A_20200101T120000_V20191231T225942_20200102T015942_20300101T000000_V20300102T000000_20300103T000000"]
      = Except.ok [ValidityInfo.mk
          "S1A_20200101T120000_V20191231T225942_20200102T015942_20300101T000000_V20300102T000000_20300103T000000"
          ⟨2030, 1, 1, 0, 0, 0⟩ ⟨2030, 1, 2, 0, 0, 0⟩ ⟨2030, 1, 3, 0, 0, 0⟩]
      ∧ get_validity_info
          ["S1A_20200101T120000_V20191231T225942_20200102T015942_20300101T000000_V20300102T000000_20300103T000000"]
        ≠ Except.ok [ValidityInfo.mk
            "S1A_20200101T120000_V20191231T225942_20200102T015942_20300101T000000_V20300102T000000_20300103T000000"
            ⟨2020, 1, 1, 12, 0, 0⟩ ⟨2019, 12, 31, 22, 59, 42⟩ ⟨2020, 1, 2, 1, 59, 42⟩] :=
  ⟨by decide, by decide⟩

/-- **C5 (amended)**.  For every identifier constructed from a triple
`(g, a, b)` in the defined format — `S1`, a non-empty word-character family
prefix remainder `w`, underscore, a compact timestamp denoting `g`, `_V`, a
compact timestamp denoting `a`, underscore, a compact timestamp denoting
`b`, then trailing characters containing no underscore — `get_validity_info`
recovers exactly that triple (and the whole identifier as product id). -/
theorem get_validity_info_roundtrip (s : String) (w gen sta sto trail : List Char)
    (g a b : DateTime)
    (hs : s.data
      = 'S' :: '1' :: (w ++ '_' :: (gen ++ '_' :: 'V' :: (sta ++ '_' :: (sto ++ trail)))))
    (hw : w ≠ []) (hwword : ∀ c ∈ w, isWordChar c = true)
    (hgen : tsShape gen = true) (hsta : tsShape sta = true) (hsto : tsShape sto = true)
    (hg : strptime gen.asString = some g) (ha : strptime sta.asString = some a)
    (hb : strptime sto.asString = some b)
    (htrail : '_' ∉ trail) :
    get_validity_info [s] = Except.ok [ValidityInfo.mk s g a b] := by
  have hk1 : 1 ≤ w.length := by
    cases w
    · exact absurd rfl hw
    · simp
  have hsucc : matchBlock
      ((w ++ '_' :: (gen ++ '_' :: 'V' :: (sta ++ '_' :: (sto ++ trail)))).drop w.length)
      = some (gen, sta, sto) := by
    rw [List.drop_left]
    exact matchBlock_intended trail hgen hsta hsto
  have hfail : ∀ j, w.length < j →
      matchBlock ((w ++ '_' :: (gen ++ '_' :: 'V'
        :: (sta ++ '_' :: (sto ++ trail)))).drop j) = none := by
    intro j hj
    obtain ⟨i, rfl⟩ : ∃ i, j = w.length + (i + 1) := ⟨j - w.length - 1, by omega⟩
    rw [List.drop_append, List.drop_succ_cons]
    exact matchBlock_drop_none trail hgen hsta hsto htrail i
  have hlen : w.length
      ≤ (((w ++ '_' :: (gen ++ '_' :: 'V'
          :: (sta ++ '_' :: (sto ++ trail)))).takeWhile isWordChar)).length := by
    rw [takeWhile_length_append _ _ hwword]
    omega
  have htry := tryBlockFrom_eq_of hk1 hsucc hfail _ hlen
  have hpm : patternMatch s = some (gen.asString, sta.asString, sto.asString) := by
    rw [patternMatch, hs]
    simp only [htry]
    simp
  simp only [get_validity_info, hpm, hg, ha, hb]

/-- Witness for the amended C5 at Scenario D:
`"S1A_AUX_POEORB_20200101T120000_V20191231T225942_20200102T015942"` parses
to generation 2020-01-01T12:00:00, start 2019-12-31T22:59:42, stop
2020-01-02T01:59:42. -/
theorem get_validity_info_roundtrip_witness :
    get_validity_info ["S1A_AUX_POEORB_20200101T120000_V20191231T225942_20200102T015942"]
      = Except.ok [ValidityInfo.mk
          "S1A_AUX_POEORB_20200101T120000_V20191231T225942_20200102T015942"
          ⟨2020, 1, 1, 12, 0, 0⟩ ⟨2019, 12, 31, 22, 59, 42⟩ ⟨2020, 1, 2, 1, 59, 42⟩] :=
  get_validity_info_roundtrip
    "S1A_AUX_POEORB_20200101T120000_V20191231T225942_20200102T015942"
    "A_AUX_POEORB".data "20200101T120000".data "20191231T225942".data
    "20200102T015942".data [] ⟨2020, 1, 1, 12, 0, 0⟩ ⟨2019, 12, 31, 22, 59, 42⟩
    ⟨2020, 1, 2, 1, 59, 42⟩ (by decide) (by decide) (by decide) (by decide)
    (by decide) (by decide) (by decide) (by decide) (by decide) (by decide)

/-- **C9**. The no-coverage error of `lastval_cover` (class `ValidityError`)
and the errors of `get_validity_info` (class `ValueError`) have different,
distinguishable Python classes: an `except ValidityError` handler catches the
former and never the latter. -/
theorem selection_error_distinguishable (pe : ParseError) (ve : ValidityError) :
    pe.pyClass ≠ ve.pyClass
      ∧ PyClass.isinstance ve.pyClass PyClass.validityError = true
      ∧ PyClass.isinstance pe.pyClass PyClass.validityError = false :=
  ⟨(by decide : PyClass.valueError ≠ PyClass.validityError),
    (by decide : PyClass.isinstance PyClass.validityError PyClass.validityError = true),
    (by decide : PyClass.isinstance PyClass.valueError PyClass.validityError = false)⟩

end Sentineleof

/-!
## Concrete spot checks

Executable checks of the embedding on the spec's scenarios and on the edge
cases exercised above.
-/

section ScenarioChecks
open Sentineleof
example :
    get_validity_info ["S1A_AUX_POEORB_20200101T120000_V20191231T225942_20200102T015942"]
      = Except.ok [⟨"S1A_AUX_POEORB_20200101T120000_V20191231T225942_20200102T015942",
          ⟨2020, 1, 1, 12, 0, 0⟩, ⟨2019, 12, 31, 22, 59, 42⟩, ⟨2020, 1, 2, 1, 59, 42⟩⟩] := by
  decide
example :
    get_validity_info
      ["S1A_20200101T120000_V20191231T225942_20200102T015942_20300101T000000_V20300102T000000_20300103T000000"]
      = Except.ok [⟨"S1A_20200101T120000_V20191231T225942_20200102T015942_20300101T000000_V20300102T000000_20300103T000000",
          ⟨2030, 1, 1, 0, 0, 0⟩, ⟨2030, 1, 2, 0, 0, 0⟩, ⟨2030, 1, 3, 0, 0, 0⟩⟩] := by
  decide
example : get_validity_info ["garbage"] = Except.error (ParseError.noMatch "garbage") := by
  decide
example :
    get_validity_info ["S1A_00000101T000000_V20200101T000000_20200102T000000"]
      = Except.error (ParseError.badTimestamp "00000101T000000") := by
  decide
-- Scenario A: single covering record selected.
example :
    lastval_cover ⟨2020, 1, 1, 12, 0, 0⟩ ⟨2020, 1, 2, 12, 0, 0⟩
      [⟨"X", ⟨2020, 1, 2, 0, 0, 0⟩, ⟨2020, 1, 1, 0, 0, 0⟩, ⟨2020, 1, 3, 0, 0, 0⟩⟩]
      = Except.ok "X" := by
  decide
-- Scenario B: later-generated covering record wins, regardless of order.
example :
    lastval_cover ⟨2020, 6, 1, 0, 0, 0⟩ ⟨2020, 6, 2, 0, 0, 0⟩
      [⟨"A", ⟨2020, 6, 3, 0, 0, 0⟩, ⟨2020, 5, 31, 0, 0, 0⟩, ⟨2020, 6, 3, 0, 0, 0⟩⟩,
       ⟨"B", ⟨2020, 6, 5, 0, 0, 0⟩, ⟨2020, 5, 31, 0, 0, 0⟩, ⟨2020, 6, 3, 0, 0, 0⟩⟩]
      = Except.ok "B" := by
  decide
-- Scenario C: boundary strictly violated by one second -> failure.
example :
    lastval_cover ⟨2020, 6, 1, 0, 0, 0⟩ ⟨2020, 6, 2, 0, 0, 1⟩
      [⟨"A", ⟨2020, 6, 3, 0, 0, 0⟩, ⟨2020, 5, 31, 0, 0, 0⟩, ⟨2020, 6, 2, 0, 0, 0⟩⟩]
      = Except.error (ValidityError.mk ⟨2020, 6, 1, 0, 0, 0⟩ ⟨2020, 6, 2, 0, 0, 1⟩) := by
  decide
-- Ties: stable sort keeps the earliest tied record first.
example :
    lastval_cover ⟨2020, 6, 1, 0, 0, 0⟩ ⟨2020, 6, 2, 0, 0, 0⟩
      [⟨"A", ⟨2020, 6, 5, 0, 0, 0⟩, ⟨2020, 5, 31, 0, 0, 0⟩, ⟨2020, 6, 3, 0, 0, 0⟩⟩,
       ⟨"B", ⟨2020, 6, 5, 0, 0, 0⟩, ⟨2020, 5, 31, 0, 0, 0⟩, ⟨2020, 6, 3, 0, 0, 0⟩⟩]
      = Except.ok "A" := by
  decide
-- datetime arithmetic: one day before 2020-03-01 is 2020-02-29 (leap year).
example :
    DateTime.subTimedelta ⟨2020, 3, 1, 6, 30, 0⟩ (Timedelta.ofDays 1)
      = ⟨2020, 2, 29, 6, 30, 0⟩ := by
  decide
example :
    DateTime.addTimedelta ⟨2019, 12, 31, 23, 0, 0⟩ (Timedelta.ofDays 1)
      = ⟨2020, 1, 1, 23, 0, 0⟩ := by
  decide
example : (Sentineleof.DateTime.mk 2020 1 1 0 0 0) ≤ (Sentineleof.DateTime.mk 2020 1 2 0 0 0) := by
  decide
example : ¬ (Sentineleof.DateTime.mk 2020 6 2 0 0 1) ≤ (Sentineleof.DateTime.mk 2020 6 2 0 0 0) := by
  decide
end ScenarioChecks
